import Mathlib

/-!
Shallow embedding of the feed ranker in `src/custom_feed.py`.

A Python post dictionary is modelled as a `Post` structure; the counts are
natural numbers (the data model calls them non-negative integers), the
timestamp and the clock are rationals (seconds since epoch), and scores are
real numbers (Python floats are modelled as reals).  The dictionaries
`interaction_history` and `format_preferences` are association lists read
through `List.lookup` with the same defaults as Python's `dict.get`; the sets
`user_follows` and `trending_hashtags` are lists read through membership.

`time.time()` is modelled as an explicit parameter `now`, fixed for the whole
call.  The in-place mutation `post['final_score'] = ...` is modelled by state
passing: `generate_feed` returns the updated full posts list (the caller's
collection after the mutations) together with the sorted list the Python
function returns.

Python 3's `**` on a negative float base with a fractional exponent does not
raise: it returns a `complex` number (principal branch), and arithmetic from
then on stays complex.  A score value is therefore modelled as a `Score`,
tracking the runtime type: a float (a real) or a complex.  Comparing a
complex value with `<` raises `TypeError`, and a comparison sort compares
every element as soon as there are two or more, so the sort — and with it
the whole call — fails exactly when at least two posts are retained and some
retained score is complex; `none` models that exception escaping the call.
-/

namespace CustomFeed

/-- A Python numeric score value, with its runtime type: `real` is a float,
`cplx` is a complex number (produced by `**` on a negative base). -/
inductive Score where
  | real (r : ℝ)
  | cplx (z : ℂ)

/-- Whether the value has Python type `float`, so that `<` can compare it. -/
def Score.isFloat : Score → Bool
  | .real _ => true
  | .cplx _ => false

/-- Python `*` on two numbers: a float when both are floats, complex as soon
as either operand is complex. -/
noncomputable def Score.mul : Score → Score → Score
  | .real a, .real b => .real (a * b)
  | .real a, .cplx w => .cplx (a * w)
  | .cplx z, .real b => .cplx (z * b)
  | .cplx z, .cplx w => .cplx (z * w)

/-- The float value under a comparison key.  Only ever used on floats: a sort
with two or more keys among which a complex one aborts before any ordering
is consulted, and a one-element sort makes no comparison. -/
def Score.key : Score → ℝ
  | .real r => r
  | .cplx z => z.re

structure Post where
  author : String
  likes : ℕ
  reposts : ℕ
  comments : ℕ
  quotes : ℕ
  hashtags : List String
  content_format : String
  engaged_by_followers : ℕ
  timestamp : ℚ
  final_score : Option Score := none

/-- Source: `engagement_score` — likes*1.8 + reposts*1.4 + comments*3 + quotes*4.5. -/
def engagement_score (post : Post) : ℚ :=
  (post.likes : ℚ) * 1.8 + (post.reposts : ℚ) * 1.4 +
    (post.comments : ℚ) * 3 + (post.quotes : ℚ) * 4.5

/-- Source: `virality_bonus` — `post.get('engaged_by_followers', 0) * 2`.
In the total model the field is always present. -/
def virality_bonus (post : Post) : ℚ :=
  (post.engaged_by_followers : ℚ) * 2

/-- Source: `hashtag_bonus` — `len(set(post['hashtags']) & trending_hashtags) * 3`:
the number of distinct hashtags of the post that are trending, times 3. -/
def hashtag_bonus (trending_hashtags : List String) (post : Post) : ℚ :=
  ((post.hashtags.dedup.filter (fun t => decide (t ∈ trending_hashtags))).length : ℚ) * 3

/-- Source: `interaction_bonus` — `interaction_history.get(post['author'], 0) * 2`. -/
def interaction_bonus (interaction_history : List (String × ℕ)) (post : Post) : ℚ :=
  (((interaction_history.lookup post.author).getD 0 : ℕ) : ℚ) * 2

/-- Source: `content_format_bonus` — `format_preferences.get(post['content_format'], 1) * 2`. -/
def content_format_bonus (format_preferences : List (String × ℚ)) (post : Post) : ℚ :=
  ((format_preferences.lookup post.content_format).getD 1) * 2

/-- Source: `time_decay` — `1 / (1 + hours_since_post ** 1.2)` with
`hours_since_post = (current_time - post['timestamp']) / 3600`.  For
nonnegative hours the power and the decay are floats; for a future timestamp
the base is negative, Python 3's `**` returns a complex number (principal
branch), and the decay is a complex value — no error is raised here. -/
noncomputable def time_decay (now : ℚ) (post : Post) : Score :=
  let hours_since_post : ℚ := (now - post.timestamp) / 3600
  if 0 ≤ hours_since_post then
    .real (1 / (1 + (hours_since_post : ℝ) ^ (1.2 : ℝ)))
  else
    .cplx (1 / (1 + (hours_since_post : ℂ) ^ (1.2 : ℂ)))

/-- Source: `author_frequency = Counter(post['author'] for post in posts)` —
the number of occurrences of an author in the full posts list, 0 if absent. -/
def author_frequency (posts : List Post) (a : String) : ℕ :=
  posts.countP (fun post => post.author == a)

/-- Source: `diversity_penalty` — `max(1 - author_frequency.get(author, 0) * 0.02, 0.9)`. -/
def diversity_penalty (freq : String → ℕ) (post : Post) : ℚ :=
  max (1 - (freq post.author : ℚ) * 0.02) 0.9

/-- The right-hand side of `post['final_score'] = ...` in the ranking loop:
the additive bundle times the time decay times the diversity penalty — a
float for a past timestamp, a complex value for a future one. -/
noncomputable def post_final_score (interaction_history : List (String × ℕ))
    (trending_hashtags : List String) (format_preferences : List (String × ℚ))
    (freq : String → ℕ) (now : ℚ) (post : Post) : Score :=
  Score.mul
    (Score.mul
      (.real ((engagement_score post + virality_bonus post +
        hashtag_bonus trending_hashtags post +
        interaction_bonus interaction_history post +
        content_format_bonus format_preferences post : ℚ) : ℝ))
      (time_decay now post))
    (.real ((diversity_penalty freq post : ℚ) : ℝ))

/-- The value `post_final_score` takes whenever it is defined
(timestamp not in the future). -/
noncomputable def final_value (interaction_history : List (String × ℕ))
    (trending_hashtags : List String) (format_preferences : List (String × ℚ))
    (freq : String → ℕ) (now : ℚ) (post : Post) : ℝ :=
  ((engagement_score post + virality_bonus post + hashtag_bonus trending_hashtags post +
      interaction_bonus interaction_history post +
      content_format_bonus format_preferences post : ℚ) : ℝ)
    * (1 / (1 + (((now - post.timestamp) / 3600 : ℚ) : ℝ) ^ (1.2 : ℝ)))
    * ((diversity_penalty freq post : ℚ) : ℝ)

/-- The loop body's in-place write `post['final_score'] = ...` on one post.
The write itself never fails: a future timestamp writes a complex score. -/
noncomputable def write_score (interaction_history : List (String × ℕ))
    (trending_hashtags : List String) (format_preferences : List (String × ℚ))
    (freq : String → ℕ) (now : ℚ) (post : Post) : Post :=
  { post with final_score := some (post_final_score interaction_history
      trending_hashtags format_preferences freq now post) }

/-- One step of the ranking pass over the caller's full list: a post by a
followed author gets its score written, any other post is left untouched.
A pass over the full list scores exactly the posts the filter keeps, in the
same order, so this is the filter-then-loop of the source. -/
noncomputable def scored_step (user_follows : List String)
    (interaction_history : List (String × ℕ)) (trending_hashtags : List String)
    (format_preferences : List (String × ℚ))
    (freq : String → ℕ) (now : ℚ) (post : Post) : Post :=
  if post.author ∈ user_follows then
    write_score interaction_history trending_hashtags format_preferences
      freq now post
  else post

/-- The sort order of `sorted(relevant_posts, key=lambda x: x['final_score'],
reverse=True)`: `a` may come before `b` when `b`'s key is at most `a`'s.
The keys compared are float values (`Score.key`); the sort is only performed
when every key it would compare is a float (see `generate_feed`), and every
post being sorted carries a written score, so the defaults are never
exercised. -/
noncomputable def feed_le (a b : Post) : Bool :=
  decide ((b.final_score.getD (.real 0)).key ≤ (a.final_score.getD (.real 0)).key)

/-- Source: `generate_feed`.  Returns `(updated, ranked)` where `updated` is
the caller's posts list after the in-place score writes and `ranked` is the
sorted list of relevant posts the Python function returns.  The scoring loop
never raises; the sort compares every element's key as soon as the list has
two or more elements, and a comparison involving a complex value raises
`TypeError`, so the call fails — `none`, the exception escaping — exactly
when at least two posts are retained and some retained score is complex.
A list of at most one element is returned without any comparison. -/
noncomputable def generate_feed (posts : List Post) (user_follows : List String)
    (interaction_history : List (String × ℕ)) (trending_hashtags : List String)
    (format_preferences : List (String × ℚ)) (now : ℚ) :
    Option (List Post × List Post) :=
  let freq := author_frequency posts
  let updated := posts.map (scored_step user_follows interaction_history
    trending_hashtags format_preferences freq now)
  let relevant_posts := updated.filter (fun post => decide (post.author ∈ user_follows))
  if relevant_posts.length ≤ 1 ∨
      ∀ post ∈ relevant_posts, (post.final_score.getD (.real 0)).isFloat = true then
    some (updated, relevant_posts.mergeSort feed_le)
  else none

/-- Modelled from the claim: the per-post final score as the specification's
formula states it, with the `max 0` clamp on the hours since the post — the
source code computes the same expression but without the clamp. -/
noncomputable def spec_final_score (posts : List Post)
    (interaction_history : List (String × ℕ)) (trending_hashtags : List String)
    (format_preferences : List (String × ℚ)) (now : ℚ) (post : Post) : ℝ :=
  ((engagement_score post + virality_bonus post + hashtag_bonus trending_hashtags post +
      interaction_bonus interaction_history post +
      content_format_bonus format_preferences post : ℚ) : ℝ)
    * (1 / (1 + ((max 0 ((now - post.timestamp) / 3600) : ℚ) : ℝ) ^ (1.2 : ℝ)))
    * ((max (1 - (author_frequency posts post.author : ℚ) * 0.02) 0.9 : ℚ) : ℝ)

/-- A simple post by a followed author, with timestamp 0 (not in the future
for clock `now = 0`). -/
def postU : Post :=
  { author := "u", likes := 3, reposts := 1, comments := 0, quotes := 0,
    hashtags := [], content_format := "text", engaged_by_followers := 0,
    timestamp := 0 }

/-- A post by an author outside the follow set `["u"]`. -/
def postV : Post :=
  { author := "v", likes := 2, reposts := 0, comments := 5, quotes := 1,
    hashtags := [], content_format := "text", engaged_by_followers := 4,
    timestamp := 0 }

/-- A post by a followed author whose timestamp (3600) is in the future for
clock `now = 0`. -/
def postW : Post :=
  { author := "u", likes := 0, reposts := 0, comments := 0, quotes := 0,
    hashtags := [], content_format := "text", engaged_by_followers := 0,
    timestamp := 3600 }

/-- The post of the specification's concrete scenario, with the clock fixed
at `now = 7200` so that `timestamp = now - 7200`. -/
def post3 : Post :=
  { author := "user1", likes := 10, reposts := 5, comments := 2, quotes := 3,
    hashtags := ["#AI", "#Bluesky"], content_format := "text",
    engaged_by_followers := 2, timestamp := 0 }

/-- A post with all counts zero and no hashtags, so that its whole additive
bundle is the format bonus. -/
def post9 : Post :=
  { author := "u", likes := 0, reposts := 0, comments := 0, quotes := 0,
    hashtags := [], content_format := "text", engaged_by_followers := 0,
    timestamp := 0 }

/-- The same post one hour older. -/
def post9b : Post := { post9 with timestamp := -3600 }

/-- A raw post as a Python dictionary: every key may be absent.  Subscript
access `post['k']` on a missing key raises (modelled as `none` propagating),
while `post.get('k', d)` returns the default `d`. -/
structure RawPost where
  author : Option String
  likes : Option ℕ
  reposts : Option ℕ
  comments : Option ℕ
  quotes : Option ℕ
  hashtags : Option (List String)
  content_format : Option String
  engaged_by_followers : Option ℕ
  timestamp : Option ℚ
  final_score : Option Score := none

/-- The loop-body score of `generate_feed` over a raw post: each required
field is read with subscript access (failing when absent), while
`engaged_by_followers` is read with `.get(..., 0)` and so merely defaults to
0 when absent.  With all required keys present the score itself never fails:
a future timestamp gives a complex value, as in `time_decay`. -/
noncomputable def raw_score (interaction_history : List (String × ℕ))
    (trending_hashtags : List String) (format_preferences : List (String × ℚ))
    (freq : String → ℕ) (now : ℚ) (p : RawPost) : Option Score := do
  let likes ← p.likes
  let reposts ← p.reposts
  let comments ← p.comments
  let quotes ← p.quotes
  let a ← p.author
  let tags ← p.hashtags
  let fmt ← p.content_format
  let ts ← p.timestamp
  let engagement : ℚ := (likes : ℚ) * 1.8 + (reposts : ℚ) * 1.4 +
    (comments : ℚ) * 3 + (quotes : ℚ) * 4.5
  let virality : ℚ := ((p.engaged_by_followers.getD 0 : ℕ) : ℚ) * 2
  let hashtagB : ℚ :=
    ((tags.dedup.filter (fun t => decide (t ∈ trending_hashtags))).length : ℚ) * 3
  let interactionB : ℚ := (((interaction_history.lookup a).getD 0 : ℕ) : ℚ) * 2
  let formatB : ℚ := ((format_preferences.lookup fmt).getD 1) * 2
  let hours : ℚ := (now - ts) / 3600
  if 0 ≤ hours then
    some (.real (((engagement + virality + hashtagB + interactionB + formatB : ℚ) : ℝ)
      * (1 / (1 + (hours : ℝ) ^ (1.2 : ℝ)))
      * ((max (1 - (freq a : ℚ) * 0.02) 0.9 : ℚ) : ℝ)))
  else
    some (.cplx (((engagement + virality + hashtagB + interactionB + formatB : ℚ) : ℂ)
      * (1 / (1 + (hours : ℂ) ^ (1.2 : ℂ)))
      * ((max (1 - (freq a : ℚ) * 0.02) 0.9 : ℚ) : ℂ)))

/-- `Counter(post['author'] for post in posts)` reads every post's author
first; a single missing author key aborts the call. -/
def raw_authors : List RawPost → Option (List String)
  | [] => some []
  | p :: rest =>
    match p.author, raw_authors rest with
    | some a, some more => some (a :: more)
    | _, _ => none

/-- The filter-and-score pass over raw posts (the filtered `relevant_posts`
and the loop over them, folded into one pass over the caller's list). -/
def raw_update (user_follows : List String) (score : RawPost → Option Score) :
    List RawPost → Option (List RawPost)
  | [] => some []
  | p :: rest =>
    match p.author with
    | none => none
    | some a =>
      if a ∈ user_follows then
        match score p with
        | none => none
        | some s =>
          (raw_update user_follows score rest).map
            (fun us => { p with final_score := some s } :: us)
      else (raw_update user_follows score rest).map (fun us => p :: us)

/-- Sort order for raw posts, by descending written float key (as in
`feed_le`, only ever consulted on floats). -/
noncomputable def raw_feed_le (a b : RawPost) : Bool :=
  decide ((b.final_score.getD (.real 0)).key ≤ (a.final_score.getD (.real 0)).key)

/-- `generate_feed` over raw posts: author counting, filter-and-score, sort.
`none` models an exception escaping the call (no partial result): a missing
required key during counting or scoring, or a complex score reaching a sort
of two or more elements. -/
noncomputable def generate_feed_raw (posts : List RawPost)
    (user_follows : List String) (interaction_history : List (String × ℕ))
    (trending_hashtags : List String) (format_preferences : List (String × ℚ))
    (now : ℚ) : Option (List RawPost × List RawPost) := do
  let authors ← raw_authors posts
  let freq : String → ℕ := fun a => authors.count a
  let updated ← raw_update user_follows
    (raw_score interaction_history trending_hashtags format_preferences freq now)
    posts
  let relevant_posts := updated.filter (fun p =>
    match p.author with
    | some a => decide (a ∈ user_follows)
    | none => false)
  if relevant_posts.length ≤ 1 ∨
      ∀ p ∈ relevant_posts, (p.final_score.getD (.real 0)).isFloat = true then
    some (updated, relevant_posts.mergeSort raw_feed_le)
  else none

/-- A raw post with every required key present except `engaged_by_followers`. -/
def rawE : RawPost :=
  { author := some "u", likes := some 0, reposts := some 0, comments := some 0,
    quotes := some 0, hashtags := some [], content_format := some "text",
    engaged_by_followers := none, timestamp := some 0 }

/-- A raw post lacking its `likes` key. -/
def rawM : RawPost :=
  { author := some "u", likes := none, reposts := some 0, comments := some 0,
    quotes := some 0, hashtags := some [], content_format := some "text",
    engaged_by_followers := some 0, timestamp := some 0 }

section Lemmas

variable {fo : List String} {hi : List (String × ℕ)} {tr : List String}
variable {pr : List (String × ℚ)} {freq : String → ℕ} {now : ℚ}

theorem hours_nonneg_iff {ts : ℚ} : 0 ≤ (now - ts) / 3600 ↔ ts ≤ now := by
  constructor <;> intro h <;> linarith

theorem post_final_score_of_le {post : Post} (h : post.timestamp ≤ now) :
    post_final_score hi tr pr freq now post =
      Score.real (final_value hi tr pr freq now post) := by
  rw [post_final_score, time_decay]
  simp only [hours_nonneg_iff.mpr h, if_pos]
  rfl

theorem post_final_score_of_fut {post : Post} (h : now < post.timestamp) :
    ∃ z : ℂ, post_final_score hi tr pr freq now post = Score.cplx z := by
  rw [post_final_score, time_decay]
  have hneg : ¬ (0 ≤ (now - post.timestamp) / 3600) := by
    rw [hours_nonneg_iff]; exact not_le.mpr h
  simp only [hneg, if_false]
  exact ⟨_, rfl⟩

theorem post_final_score_fut_not_float {post : Post} (h : now < post.timestamp) :
    (post_final_score hi tr pr freq now post).isFloat = false := by
  obtain ⟨z, hz⟩ := @post_final_score_of_fut hi tr pr freq now post h
  rw [hz]
  rfl

theorem write_score_final (post : Post) :
    (write_score hi tr pr freq now post).final_score =
      some (post_final_score hi tr pr freq now post) := rfl

theorem scored_step_author (post : Post) :
    (scored_step fo hi tr pr freq now post).author = post.author := by
  rw [scored_step]; split <;> rfl

theorem scored_step_of_mem {post : Post} (h : post.author ∈ fo) :
    scored_step fo hi tr pr freq now post = write_score hi tr pr freq now post := by
  rw [scored_step, if_pos h]

theorem scored_step_of_not_mem {post : Post} (h : post.author ∉ fo) :
    scored_step fo hi tr pr freq now post = post := by
  rw [scored_step, if_neg h]

theorem feed_le_trans :
    ∀ a b c : Post, feed_le a b = true → feed_le b c = true → feed_le a c = true := by
  intro a b c hab hbc
  simp only [feed_le, decide_eq_true_eq] at *
  exact le_trans hbc hab

theorem feed_le_total : ∀ a b : Post, (feed_le a b || feed_le b a) = true := by
  intro a b
  simp only [feed_le, Bool.or_eq_true, decide_eq_true_eq]
  exact le_total _ _

theorem write_score_author (post : Post) :
    (write_score hi tr pr freq now post).author = post.author := rfl

theorem filter_map_scored (ps : List Post) :
    (ps.map (scored_step fo hi tr pr freq now)).filter
        (fun post => decide (post.author ∈ fo)) =
      (ps.filter (fun post => decide (post.author ∈ fo))).map
        (write_score hi tr pr freq now) := by
  induction ps with
  | nil => rfl
  | cons p rest ih =>
    by_cases hp : p.author ∈ fo
    · simp [List.filter_cons, scored_step_author, write_score_author, hp,
        scored_step_of_mem hp, ih]
    · simp [List.filter_cons, scored_step_author, hp, scored_step_of_not_mem hp, ih]

theorem generate_feed_of_le {posts : List Post}
    (h : ∀ p ∈ posts, p.author ∈ fo → p.timestamp ≤ now) :
    generate_feed posts fo hi tr pr now =
      some (posts.map (scored_step fo hi tr pr (author_frequency posts) now),
        ((posts.map (scored_step fo hi tr pr (author_frequency posts) now)).filter
            (fun post => decide (post.author ∈ fo))).mergeSort feed_le) := by
  have hfloat : ∀ q ∈ (posts.map
      (scored_step fo hi tr pr (author_frequency posts) now)).filter
      (fun post => decide (post.author ∈ fo)),
      ((q.final_score.getD (Score.real 0)).isFloat = true) := by
    intro q hq
    rw [filter_map_scored] at hq
    obtain ⟨p, hp, rfl⟩ := List.mem_map.mp hq
    have hpf : p.author ∈ fo := by
      have := List.of_mem_filter hp
      simpa using this
    have hts : p.timestamp ≤ now := h p (List.mem_of_mem_filter hp) hpf
    rw [write_score_final, Option.getD_some,
      @post_final_score_of_le hi tr pr (author_frequency posts) now p hts]
    rfl
  simp only [generate_feed]
  rw [if_pos (Or.inr hfloat)]

theorem generate_feed_some {posts u out : List Post}
    (h : generate_feed posts fo hi tr pr now = some (u, out)) :
    u = posts.map (scored_step fo hi tr pr (author_frequency posts) now) ∧
      out = (u.filter (fun post => decide (post.author ∈ fo))).mergeSort feed_le := by
  simp only [generate_feed] at h
  split at h
  · simp only [Option.some.injEq, Prod.mk.injEq] at h
    refine ⟨h.1.symm, ?_⟩
    rw [← h.2, h.1]
  · exact absurd h (by simp)

theorem generate_feed_singleton {p : Post} (hmem : p.author ∈ fo) :
    generate_feed [p] fo hi tr pr now =
      some ([write_score hi tr pr (author_frequency [p]) now p],
        [write_score hi tr pr (author_frequency [p]) now p]) := by
  simp only [generate_feed]
  rw [show [p].map (scored_step fo hi tr pr (author_frequency [p]) now) =
      [write_score hi tr pr (author_frequency [p]) now p] from by
    simp [scored_step_of_mem hmem]]
  rw [show [write_score hi tr pr (author_frequency [p]) now p].filter
      (fun post => decide (post.author ∈ fo)) =
      [write_score hi tr pr (author_frequency [p]) now p] from by
    simp [List.filter_cons, write_score_author, hmem]]
  rw [if_pos (Or.inl (by simp))]
  simp

theorem generate_feed_fails {posts : List Post} {p : Post} (hp : p ∈ posts)
    (hf : p.author ∈ fo) (hfut : now < p.timestamp)
    (h2 : 2 ≤ (posts.filter (fun q => decide (q.author ∈ fo))).length) :
    generate_feed posts fo hi tr pr now = none := by
  have hlen : ((posts.map (scored_step fo hi tr pr (author_frequency posts) now)).filter
      (fun post => decide (post.author ∈ fo))).length =
      (posts.filter (fun q => decide (q.author ∈ fo))).length := by
    rw [filter_map_scored, List.length_map]
  have hmemw : write_score hi tr pr (author_frequency posts) now p ∈
      (posts.map (scored_step fo hi tr pr (author_frequency posts) now)).filter
        (fun post => decide (post.author ∈ fo)) := by
    rw [filter_map_scored]
    exact List.mem_map.mpr ⟨p, List.mem_filter.mpr ⟨hp, by simpa using hf⟩, rfl⟩
  have hnotf : ((write_score hi tr pr (author_frequency posts) now p).final_score.getD
      (Score.real 0)).isFloat = false := by
    rw [write_score_final, Option.getD_some]
    exact post_final_score_fut_not_float hfut
  simp only [generate_feed]
  split
  · next hc =>
      exfalso
      rcases hc with hle | hall
      · rw [hlen] at hle
        omega
      · have := hall _ hmemw
        rw [hnotf] at this
        exact absurd this (by simp)
  · rfl

theorem rpow_six_fifths_pow_five {x : ℝ} (hx : 0 ≤ x) :
    (x ^ (1.2 : ℝ)) ^ (5 : ℕ) = x ^ (6 : ℕ) := by
  have h6 : (1.2 : ℝ) * (5 : ℕ) = ((6 : ℕ) : ℝ) := by norm_num
  rw [← Real.rpow_natCast (x ^ (1.2 : ℝ)) 5, ← Real.rpow_mul hx, h6,
    Real.rpow_natCast]

theorem two_rpow_pow_five : ((2 : ℝ) ^ (1.2 : ℝ)) ^ (5 : ℕ) = 64 := by
  rw [rpow_six_fifths_pow_five (by norm_num : (0:ℝ) ≤ 2)]
  norm_num

theorem two_rpow_gt : (2.2969 : ℝ) < (2 : ℝ) ^ (1.2 : ℝ) := by
  have hx : (0:ℝ) ≤ (2 : ℝ) ^ (1.2 : ℝ) := Real.rpow_nonneg (by norm_num) _
  refine lt_of_pow_lt_pow_left₀ 5 hx ?_
  rw [two_rpow_pow_five]
  norm_num

theorem two_rpow_lt : (2 : ℝ) ^ (1.2 : ℝ) < 2.2979 := by
  refine lt_of_pow_lt_pow_left₀ 5 (by norm_num : (0:ℝ) ≤ 2.2979) ?_
  rw [two_rpow_pow_five]
  norm_num

end Lemmas

section Lemmas2

variable {fo : List String} {hi : List (String × ℕ)} {tr : List String}
variable {pr : List (String × ℚ)} {now : ℚ}

theorem spec_final_score_of_le {posts : List Post} {post : Post}
    (h : post.timestamp ≤ now) :
    spec_final_score posts hi tr pr now post =
      final_value hi tr pr (author_frequency posts) now post := by
  rw [spec_final_score, final_value, diversity_penalty,
    max_eq_right (hours_nonneg_iff.mpr h)]

end Lemmas2

section ClaimProofs

/-- Evaluation of the ranker on a two-post list with one followed and one
non-followed author: the followed post gets its score written and is the only
output; the other post is untouched. -/
theorem generate_feed_uv :
    generate_feed [postU, postV] ["u"] [] [] [] 0 =
      some ([write_score [] [] [] (author_frequency [postU, postV]) 0 postU, postV],
        [write_score [] [] [] (author_frequency [postU, postV]) 0 postU]) := by
  have hU : postU.author ∈ ["u"] := by decide
  have hV : postV.author ∉ ["u"] := by decide
  simp only [generate_feed]
  rw [List.map_cons, List.map_cons, List.map_nil, scored_step_of_mem hU,
    scored_step_of_not_mem hV]
  rw [show [write_score [] [] [] (author_frequency [postU, postV]) 0 postU,
      postV].filter (fun post => decide (post.author ∈ ["u"])) =
      [write_score [] [] [] (author_frequency [postU, postV]) 0 postU] from by
    simp [List.filter_cons, write_score_author, show postU.author = "u" from rfl,
      show postV.author = "v" from rfl]]
  rw [if_pos (Or.inl (by simp))]
  simp

/-- C2: on a normal return, the output of `generate_feed` is a permutation of
the input posts whose author is followed (each carrying its single written
`final_score`); no post by a non-followed author appears, and no post is
invented. -/
theorem C2_output_permutation (posts : List Post) (fo : List String)
    (hi : List (String × ℕ)) (tr : List String) (pr : List (String × ℚ))
    (now : ℚ) (u out : List Post)
    (h : generate_feed posts fo hi tr pr now = some (u, out)) :
    out.Perm ((posts.filter (fun post => decide (post.author ∈ fo))).map
        (write_score hi tr pr (author_frequency posts) now)) ∧
      (∀ q ∈ out, q.author ∈ fo) ∧
      (∀ q ∈ out, ∃ s : Score, q.final_score = some s) := by
  obtain ⟨hu, hout⟩ := generate_feed_some h
  subst hu
  subst hout
  refine ⟨?_, ?_, ?_⟩
  · refine (List.mergeSort_perm _ _).trans ?_
    rw [filter_map_scored]
  · intro q hq
    rw [List.mem_mergeSort] at hq
    have := List.of_mem_filter hq
    simpa using this
  · intro q hq
    rw [List.mem_mergeSort, filter_map_scored] at hq
    obtain ⟨p, hp, rfl⟩ := List.mem_map.mp hq
    exact ⟨_, rfl⟩

/-- Witness for C2 at a concrete input: one followed and one non-followed
post. -/
theorem C2_output_permutation_witness :
    generate_feed [postU, postV] ["u"] [] [] [] 0 =
      some ([write_score [] [] [] (author_frequency [postU, postV]) 0 postU, postV],
        [write_score [] [] [] (author_frequency [postU, postV]) 0 postU]) ∧
      ([write_score [] [] [] (author_frequency [postU, postV]) 0 postU].Perm
        (([postU, postV].filter (fun post => decide (post.author ∈ ["u"]))).map
          (write_score [] [] [] (author_frequency [postU, postV]) 0)) ∧
      (∀ q ∈ [write_score [] [] [] (author_frequency [postU, postV]) 0 postU],
        q.author ∈ ["u"]) ∧
      (∀ q ∈ [write_score [] [] [] (author_frequency [postU, postV]) 0 postU],
        ∃ s : Score, q.final_score = some s)) :=
  ⟨generate_feed_uv,
    C2_output_permutation [postU, postV] ["u"] [] [] [] 0 _ _ generate_feed_uv⟩

/-- Counterexample to C6 as stated: a single retained future-dated post does
not make the call fail — Python 3's `**` on the negative base yields a
complex number rather than raising, the loop writes it as the score, and a
one-element sort makes no comparison, so the post comes back with a
complex-typed score. -/
theorem C6_counterexample :
    ∃ z : ℂ,
      generate_feed [postW] ["u"] [] [] [] 0 =
        some ([{ postW with final_score := some (Score.cplx z) }],
          [{ postW with final_score := some (Score.cplx z) }]) := by
  obtain ⟨z, hz⟩ := @post_final_score_of_fut [] [] [] (author_frequency [postW]) 0
    postW (by norm_num [postW])
  refine ⟨z, ?_⟩
  rw [generate_feed_singleton (by decide),
    show write_score [] [] [] (author_frequency [postW]) 0 postW =
      { postW with final_score := some (Score.cplx z) } from by
        rw [write_score, hz]]

/-- C6 as amended: for a retained future-dated post the unclamped
exponentiation yields a complex (non-real) value instead of raising a domain
error.  With a single retained post the call returns it, scored with that
complex value; as soon as two or more posts are retained, the sort compares
the keys and the call fails. -/
theorem C6_future_timestamp_behavior :
    (∀ (fo : List String) (hi : List (String × ℕ)) (tr : List String)
        (pr : List (String × ℚ)) (now : ℚ) (p : Post),
      p.author ∈ fo → now < p.timestamp →
      ∃ z : ℂ,
        generate_feed [p] fo hi tr pr now =
          some ([{ p with final_score := some (Score.cplx z) }],
            [{ p with final_score := some (Score.cplx z) }])) ∧
    (∀ (posts : List Post) (fo : List String) (hi : List (String × ℕ))
        (tr : List String) (pr : List (String × ℚ)) (now : ℚ) (p : Post),
      p ∈ posts → p.author ∈ fo → now < p.timestamp →
      2 ≤ (posts.filter (fun q => decide (q.author ∈ fo))).length →
      generate_feed posts fo hi tr pr now = none) := by
  constructor
  · intro fo hi tr pr now p hmem hfut
    obtain ⟨z, hz⟩ := @post_final_score_of_fut hi tr pr (author_frequency [p]) now
      p hfut
    refine ⟨z, ?_⟩
    rw [generate_feed_singleton hmem,
      show write_score hi tr pr (author_frequency [p]) now p =
        { p with final_score := some (Score.cplx z) } from by
          rw [write_score, hz]]
  · intro posts fo hi tr pr now p hp hmem hfut h2
    exact generate_feed_fails hp hmem hfut h2

/-- Witness for C6's amended theorem: one followed future-dated post returns
(with a complex score); adding a second followed post makes the call fail. -/
theorem C6_future_timestamp_behavior_witness :
    (postW.author ∈ ["u"] ∧ (0 : ℚ) < postW.timestamp ∧
      (∃ z : ℂ, generate_feed [postW] ["u"] [] [] [] 0 =
        some ([{ postW with final_score := some (Score.cplx z) }],
          [{ postW with final_score := some (Score.cplx z) }]))) ∧
    (postW ∈ [postW, postU] ∧ postW.author ∈ ["u"] ∧ (0 : ℚ) < postW.timestamp ∧
      2 ≤ ([postW, postU].filter (fun q => decide (q.author ∈ ["u"]))).length ∧
      generate_feed [postW, postU] ["u"] [] [] [] 0 = none) :=
  ⟨⟨by decide, by norm_num [postW],
      C6_future_timestamp_behavior.1 ["u"] [] [] [] 0 postW (by decide)
        (by norm_num [postW])⟩,
    ⟨List.mem_cons_self _ _, by decide, by norm_num [postW], by decide,
      C6_future_timestamp_behavior.2 [postW, postU] ["u"] [] [] [] 0 postW
        (List.mem_cons_self _ _) (by decide) (by norm_num [postW]) (by decide)⟩⟩

/-- C8: an empty posts list gives an empty feed, and an empty follow set
gives an empty feed (with every post left untouched); neither is an error. -/
theorem C8_empty_inputs :
    (∀ (fo : List String) (hi : List (String × ℕ)) (tr : List String)
        (pr : List (String × ℚ)) (now : ℚ),
      generate_feed [] fo hi tr pr now = some ([], [])) ∧
    (∀ (posts : List Post) (hi : List (String × ℕ)) (tr : List String)
        (pr : List (String × ℚ)) (now : ℚ),
      generate_feed posts [] hi tr pr now = some (posts, [])) := by
  constructor
  · intro fo hi tr pr now
    rw [generate_feed_of_le (by simp)]
    simp
  · intro posts hi tr pr now
    rw [generate_feed_of_le (by simp)]
    have hmap : List.map (scored_step [] hi tr pr (author_frequency posts) now)
        posts = posts :=
      List.map_id'' (fun p => scored_step_of_not_mem (List.not_mem_nil _)) posts
    rw [hmap]
    have hfil : posts.filter (fun post => decide (post.author ∈ ([] : List String)))
        = [] := by
      simp
    rw [hfil]
    simp

/-- C4: on a normal return the output is sorted by descending `final_score`,
and the sort is stable: two retained posts with equal scores keep the relative
order they have in the (score-annotated) input list. -/
theorem C4_sorted_descending_stable (posts : List Post) (fo : List String)
    (hi : List (String × ℕ)) (tr : List String) (pr : List (String × ℚ))
    (now : ℚ) (u out : List Post)
    (h : generate_feed posts fo hi tr pr now = some (u, out)) :
    out.Pairwise (fun a b => (b.final_score.getD (Score.real 0)).key ≤
        (a.final_score.getD (Score.real 0)).key) ∧
      ∀ a b : Post,
        [a, b].Sublist (u.filter (fun post => decide (post.author ∈ fo))) →
        (a.final_score.getD (Score.real 0)).key =
          (b.final_score.getD (Score.real 0)).key → [a, b].Sublist out := by
  obtain ⟨hu, hout⟩ := generate_feed_some h
  subst hu
  subst hout
  constructor
  · have hs := List.sorted_mergeSort feed_le_trans feed_le_total
      ((List.map (scored_step fo hi tr pr (author_frequency posts) now)
          posts).filter (fun post => decide (post.author ∈ fo)))
    exact hs.imp (fun hab => of_decide_eq_true hab)
  · intro a b hab heq
    refine List.pair_sublist_mergeSort feed_le_trans feed_le_total ?_ hab
    simp [feed_le, heq]

/-- Witness for C4 at a concrete input with one followed and one non-followed
post. -/
theorem C4_sorted_descending_stable_witness :
    generate_feed [postU, postV] ["u"] [] [] [] 0 =
      some ([write_score [] [] [] (author_frequency [postU, postV]) 0 postU, postV],
        [write_score [] [] [] (author_frequency [postU, postV]) 0 postU]) ∧
      ([write_score [] [] [] (author_frequency [postU, postV]) 0 postU].Pairwise
          (fun a b => (b.final_score.getD (Score.real 0)).key ≤
            (a.final_score.getD (Score.real 0)).key) ∧
        ∀ a b : Post,
          [a, b].Sublist
            (([write_score [] [] [] (author_frequency [postU, postV]) 0 postU,
                postV]).filter (fun post => decide (post.author ∈ ["u"]))) →
          (a.final_score.getD (Score.real 0)).key =
            (b.final_score.getD (Score.real 0)).key →
          [a, b].Sublist
            [write_score [] [] [] (author_frequency [postU, postV]) 0 postU]) :=
  ⟨generate_feed_uv,
    C4_sorted_descending_stable [postU, postV] ["u"] [] [] [] 0 _ _
      generate_feed_uv⟩

/-- C5: every score the ranker writes uses the author-frequency count taken
over the full original posts collection (`author_frequency posts` counts the
author's occurrences among all supplied posts, followed or not). -/
theorem C5_penalty_uses_full_collection (posts : List Post) (fo : List String)
    (hi : List (String × ℕ)) (tr : List String) (pr : List (String × ℚ))
    (now : ℚ) (u out : List Post)
    (h : generate_feed posts fo hi tr pr now = some (u, out)) :
    ∀ q ∈ out, q.final_score = some
      (Score.mul
        (Score.mul
          (Score.real ((engagement_score q + virality_bonus q + hashtag_bonus tr q +
            interaction_bonus hi q + content_format_bonus pr q : ℚ) : ℝ))
          (time_decay now q))
        (Score.real ((max (1 - (author_frequency posts q.author : ℚ) * 0.02)
          0.9 : ℚ) : ℝ))) := by
  obtain ⟨hu, hout⟩ := generate_feed_some h
  subst hu
  subst hout
  intro q hq
  rw [List.mem_mergeSort, filter_map_scored] at hq
  obtain ⟨p, hp, rfl⟩ := List.mem_map.mp hq
  rfl

/-- Witness for C5 at a concrete input with one followed and one non-followed
post. -/
theorem C5_penalty_uses_full_collection_witness :
    generate_feed [postU, postV] ["u"] [] [] [] 0 =
      some ([write_score [] [] [] (author_frequency [postU, postV]) 0 postU, postV],
        [write_score [] [] [] (author_frequency [postU, postV]) 0 postU]) ∧
      ∀ q ∈ [write_score [] [] [] (author_frequency [postU, postV]) 0 postU],
        q.final_score = some
          (Score.mul
            (Score.mul
              (Score.real ((engagement_score q + virality_bonus q +
                hashtag_bonus [] q + interaction_bonus [] q +
                content_format_bonus [] q : ℚ) : ℝ))
              (time_decay 0 q))
            (Score.real ((max (1 - (author_frequency [postU, postV] q.author : ℚ)
              * 0.02) 0.9 : ℚ) : ℝ))) :=
  ⟨generate_feed_uv,
    C5_penalty_uses_full_collection [postU, postV] ["u"] [] [] [] 0 _ _
      generate_feed_uv⟩

/-- C1 as amended: when no retained post is future-dated, `generate_feed`
succeeds and writes on every retained post exactly the score the
specification's formula gives (the `max 0` clamp being vacuous then). -/
theorem C1_score_formula (posts : List Post) (fo : List String)
    (hi : List (String × ℕ)) (tr : List String) (pr : List (String × ℚ))
    (now : ℚ) (hts : ∀ p ∈ posts, p.author ∈ fo → p.timestamp ≤ now) :
    ∃ u out, generate_feed posts fo hi tr pr now = some (u, out) ∧
      ∀ p ∈ posts, p.author ∈ fo →
        { p with
          final_score := some (Score.real (spec_final_score posts hi tr pr now p)) } ∈ out := by
  refine ⟨_, _, generate_feed_of_le hts, ?_⟩
  intro p hp hf
  rw [List.mem_mergeSort, filter_map_scored]
  refine List.mem_map.mpr ⟨p, List.mem_filter.mpr ⟨hp, by simpa using hf⟩, ?_⟩
  rw [spec_final_score_of_le (hts p hp hf), write_score,
    @post_final_score_of_le hi tr pr (author_frequency posts) now p (hts p hp hf)]

/-- Witness for C1's amended theorem at a concrete input. -/
theorem C1_score_formula_witness :
    (∀ p ∈ [postU], p.author ∈ ["u"] → p.timestamp ≤ (0 : ℚ)) ∧
      ∃ u out, generate_feed [postU] ["u"] [] [] [] 0 = some (u, out) ∧
        ∀ p ∈ [postU], p.author ∈ ["u"] →
          { p with
            final_score := some (Score.real (spec_final_score [postU] [] [] [] 0 p)) } ∈ out :=
  ⟨by decide, C1_score_formula [postU] ["u"] [] [] [] 0 (by decide)⟩

/-- Counterexample to C1 as stated: for a retained post with a future
timestamp the code does not assign the clamped-formula (float) score — the
unclamped `**` promotes to a complex value, so the post comes back carrying a
complex-typed score instead of the claimed real one. -/
theorem C1_counterexample :
    ¬ (∀ (posts : List Post) (fo : List String) (hi : List (String × ℕ))
        (tr : List String) (pr : List (String × ℚ)) (now : ℚ),
        ∀ p ∈ posts, p.author ∈ fo →
          ∃ u out, generate_feed posts fo hi tr pr now = some (u, out) ∧
            { p with
              final_score := some (Score.real (spec_final_score posts hi tr pr now p)) } ∈
              out) := by
  intro hclaim
  obtain ⟨u, out, hgf, hmem⟩ := hclaim [postW] ["u"] [] [] [] 0 postW
    (List.mem_singleton.mpr rfl) (by decide)
  obtain ⟨z, hz⟩ := @post_final_score_of_fut [] [] [] (author_frequency [postW]) 0
    postW (by norm_num [postW])
  rw [generate_feed_singleton (by decide)] at hgf
  simp only [Option.some.injEq, Prod.mk.injEq] at hgf
  rw [← hgf.2, List.mem_singleton] at hmem
  have hfs := congrArg Post.final_score hmem
  rw [write_score_final, hz] at hfs
  simp only [Option.some.injEq] at hfs
  exact Score.noConfusion hfs

theorem engagement_score_post3 : engagement_score post3 = 44.5 := by
  rw [engagement_score, show post3.likes = 10 from rfl,
    show post3.reposts = 5 from rfl, show post3.comments = 2 from rfl,
    show post3.quotes = 3 from rfl]
  norm_num

theorem bundle_post3 :
    engagement_score post3 + virality_bonus post3 +
      hashtag_bonus ["#AI", "#Bluesky"] post3 +
      interaction_bonus [("user1", 10)] post3 +
      content_format_bonus [("text", 1)] post3 = (76.5 : ℚ) := by
  have h2 : virality_bonus post3 = 4 := by
    rw [virality_bonus, show post3.engaged_by_followers = 2 from rfl]; norm_num
  have h3 : hashtag_bonus ["#AI", "#Bluesky"] post3 = 6 := by
    rw [hashtag_bonus, show (post3.hashtags.dedup.filter
      (fun t => decide (t ∈ ["#AI", "#Bluesky"]))).length = 2 from by decide]
    norm_num
  have h4 : interaction_bonus [("user1", 10)] post3 = 20 := by
    rw [interaction_bonus,
      show (List.lookup post3.author [("user1", 10)]).getD 0 = 10 from by decide]
    norm_num
  have h5 : content_format_bonus [("text", 1)] post3 = 2 := by
    rw [content_format_bonus, show (List.lookup post3.content_format
      [("text", (1 : ℚ))]).getD 1 = (1 : ℚ) from by simp [List.lookup, post3]]
    norm_num
  rw [engagement_score_post3, h2, h3, h4, h5]
  norm_num

theorem penalty_post3 :
    diversity_penalty (author_frequency [post3]) post3 = (0.98 : ℚ) := by
  rw [diversity_penalty, show author_frequency [post3] post3.author = 1 from by decide]
  have h1 : (1 : ℚ) - ((1 : ℕ) : ℚ) * 0.02 = 0.98 := by push_cast; norm_num
  rw [h1, max_eq_left (by norm_num : (0.9 : ℚ) ≤ 0.98)]

theorem final_value_post3 :
    final_value [("user1", 10)] ["#AI", "#Bluesky"] [("text", 1)]
      (author_frequency [post3]) 7200 post3 =
    ((76.5 : ℚ) : ℝ) * (1 / (1 + ((2 : ℚ) : ℝ) ^ (1.2 : ℝ))) * ((0.98 : ℚ) : ℝ) := by
  rw [final_value, bundle_post3, penalty_post3,
    show (7200 - post3.timestamp) / 3600 = (2 : ℚ) from by
      rw [show post3.timestamp = 0 from rfl]; norm_num]

theorem score3_lower :
    (22.73 : ℝ) < ((76.5 : ℚ) : ℝ) * (1 / (1 + ((2 : ℚ) : ℝ) ^ (1.2 : ℝ))) *
      ((0.98 : ℚ) : ℝ) := by
  have hx0 : (0 : ℝ) ≤ (2 : ℝ) ^ (1.2 : ℝ) := Real.rpow_nonneg (by norm_num) _
  have hlt := two_rpow_lt
  have hpos : (0 : ℝ) < 1 + (2 : ℝ) ^ (1.2 : ℝ) := by linarith
  have hcast : ((2 : ℚ) : ℝ) = (2 : ℝ) := by norm_num
  rw [hcast, show ((76.5 : ℚ) : ℝ) = (76.5 : ℝ) from by norm_num,
    show ((0.98 : ℚ) : ℝ) = (0.98 : ℝ) from by norm_num,
    show (76.5 : ℝ) * (1 / (1 + (2 : ℝ) ^ (1.2 : ℝ))) * 0.98 =
      74.97 / (1 + (2 : ℝ) ^ (1.2 : ℝ)) from by ring]
  rw [lt_div_iff₀ hpos]
  nlinarith

theorem score3_upper :
    ((76.5 : ℚ) : ℝ) * (1 / (1 + ((2 : ℚ) : ℝ) ^ (1.2 : ℝ))) * ((0.98 : ℚ) : ℝ) <
      (22.74 : ℝ) := by
  have hx0 : (0 : ℝ) ≤ (2 : ℝ) ^ (1.2 : ℝ) := Real.rpow_nonneg (by norm_num) _
  have hgt := two_rpow_gt
  have hpos : (0 : ℝ) < 1 + (2 : ℝ) ^ (1.2 : ℝ) := by linarith
  have hcast : ((2 : ℚ) : ℝ) = (2 : ℝ) := by norm_num
  rw [hcast, show ((76.5 : ℚ) : ℝ) = (76.5 : ℝ) from by norm_num,
    show ((0.98 : ℚ) : ℝ) = (0.98 : ℝ) from by norm_num,
    show (76.5 : ℝ) * (1 / (1 + (2 : ℝ) ^ (1.2 : ℝ))) * 0.98 =
      74.97 / (1 + (2 : ℝ) ^ (1.2 : ℝ)) from by ring]
  rw [div_lt_iff₀ hpos]
  nlinarith

/-- C3 as amended: in the concrete scenario the output is the one-element
list with that post, whose written score is
`76.5 * (1/(1 + 2^1.2)) * 0.98 ≈ 22.74` — the engagement bundle 76.5 is as
the specification computes it, but the diversity penalty is 0.98 (the author
occurs once, and the code penalises from the first occurrence) and
`2^1.2 ≈ 2.2974`, so the final score lies in (22.73, 22.74). -/
theorem C3_scenario :
    ∃ s : ℝ,
      generate_feed [post3] ["user1"] [("user1", 10)] ["#AI", "#Bluesky"]
          [("text", 1)] 7200 =
        some ([{ post3 with final_score := some (Score.real s) }],
          [{ post3 with final_score := some (Score.real s) }]) ∧
      s = ((76.5 : ℚ) : ℝ) * (1 / (1 + ((2 : ℚ) : ℝ) ^ (1.2 : ℝ))) *
        ((0.98 : ℚ) : ℝ) ∧
      22.73 < s ∧ s < 22.74 := by
  refine ⟨final_value [("user1", 10)] ["#AI", "#Bluesky"] [("text", 1)]
    (author_frequency [post3]) 7200 post3, ?_, final_value_post3, ?_, ?_⟩
  · rw [generate_feed_singleton (by decide), write_score,
      @post_final_score_of_le [("user1", 10)] ["#AI", "#Bluesky"] [("text", 1)]
        (author_frequency [post3]) 7200 post3 (by decide)]
  · rw [final_value_post3]; exact score3_lower
  · rw [final_value_post3]; exact score3_upper

/-- Counterexample to C3 as stated: in the concrete scenario the score the
code actually writes differs from the claimed 23.04 by more than 1/4 (it is
about 22.74: the claim's `time_decay ≈ 0.3012` and `diversity_penalty = 1.0`
are both wrong for this code). -/
theorem C3_counterexample :
    ∃ s : ℝ,
      generate_feed [post3] ["user1"] [("user1", 10)] ["#AI", "#Bluesky"]
          [("text", 1)] 7200 =
        some ([{ post3 with final_score := some (Score.real s) }],
          [{ post3 with final_score := some (Score.real s) }]) ∧
      (1 / 4 : ℝ) < |s - 23.04| := by
  refine ⟨final_value [("user1", 10)] ["#AI", "#Bluesky"] [("text", 1)]
    (author_frequency [post3]) 7200 post3, ?_, ?_⟩
  · rw [generate_feed_singleton (by decide), write_score,
      @post_final_score_of_le [("user1", 10)] ["#AI", "#Bluesky"] [("text", 1)]
        (author_frequency [post3]) 7200 post3 (by decide)]
  have hup : final_value [("user1", 10)] ["#AI", "#Bluesky"] [("text", 1)]
      (author_frequency [post3]) 7200 post3 < 22.74 := by
    rw [final_value_post3]; exact score3_upper
  have hlow : (22.73 : ℝ) < final_value [("user1", 10)] ["#AI", "#Bluesky"]
      [("text", 1)] (author_frequency [post3]) 7200 post3 := by
    rw [final_value_post3]; exact score3_lower
  rw [abs_of_neg (by linarith)]
  linarith

theorem engagement_score_timestamp (p : Post) (t : ℚ) :
    engagement_score { p with timestamp := t } = engagement_score p := rfl

theorem virality_bonus_timestamp (p : Post) (t : ℚ) :
    virality_bonus { p with timestamp := t } = virality_bonus p := rfl

theorem hashtag_bonus_timestamp (tr : List String) (p : Post) (t : ℚ) :
    hashtag_bonus tr { p with timestamp := t } = hashtag_bonus tr p := rfl

theorem interaction_bonus_timestamp (hi : List (String × ℕ)) (p : Post) (t : ℚ) :
    interaction_bonus hi { p with timestamp := t } = interaction_bonus hi p := rfl

theorem content_format_bonus_timestamp (pr : List (String × ℚ)) (p : Post) (t : ℚ) :
    content_format_bonus pr { p with timestamp := t } =
      content_format_bonus pr p := rfl

theorem timestamp_update_timestamp (p : Post) (t : ℚ) :
    ({ p with timestamp := t } : Post).timestamp = t := rfl

theorem author_frequency_self (q : Post) : author_frequency [q] q.author = 1 := by
  simp [author_frequency]

theorem diversity_penalty_single (q : Post) :
    diversity_penalty (author_frequency [q]) q = 0.98 := by
  rw [diversity_penalty, author_frequency_self]
  push_cast
  rw [show (1 : ℚ) - 1 * 0.02 = 0.98 from by norm_num,
    max_eq_left (by norm_num : (0.9 : ℚ) ≤ 0.98)]

/-- C9 as amended: holding everything but the timestamp fixed, and provided
neither timestamp is in the future and the viewer's weight for the post's
format is nonnegative, the fresher post's written score is at least the older
post's. -/
theorem C9_recency_monotone (fo : List String) (hi : List (String × ℕ))
    (tr : List String) (pr : List (String × ℚ)) (now t1 t2 : ℚ) (p : Post)
    (hmem : p.author ∈ fo) (h21 : t2 ≤ t1) (h1 : t1 ≤ now)
    (hw : 0 ≤ (pr.lookup p.content_format).getD 1) :
    ∃ s1 s2 : ℝ,
      generate_feed [{ p with timestamp := t1 }] fo hi tr pr now =
        some ([{ p with timestamp := t1, final_score := some (Score.real s1) }],
          [{ p with timestamp := t1, final_score := some (Score.real s1) }]) ∧
      generate_feed [{ p with timestamp := t2 }] fo hi tr pr now =
        some ([{ p with timestamp := t2, final_score := some (Score.real s2) }],
          [{ p with timestamp := t2, final_score := some (Score.real s2) }]) ∧
      s2 ≤ s1 := by
  refine ⟨final_value hi tr pr (author_frequency [{ p with timestamp := t1 }]) now
      { p with timestamp := t1 },
    final_value hi tr pr (author_frequency [{ p with timestamp := t2 }]) now
      { p with timestamp := t2 }, ?_, ?_, ?_⟩
  · rw [generate_feed_singleton
        (show ({ p with timestamp := t1 } : Post).author ∈ fo from hmem),
      write_score,
      @post_final_score_of_le hi tr pr
        (author_frequency [{ p with timestamp := t1 }]) now
        { p with timestamp := t1 } h1]
  · rw [generate_feed_singleton
        (show ({ p with timestamp := t2 } : Post).author ∈ fo from hmem),
      write_score,
      @post_final_score_of_le hi tr pr
        (author_frequency [{ p with timestamp := t2 }]) now
        { p with timestamp := t2 } (le_trans h21 h1)]
  · simp only [final_value, diversity_penalty_single, engagement_score_timestamp,
      virality_bonus_timestamp, hashtag_bonus_timestamp, interaction_bonus_timestamp,
      content_format_bonus_timestamp, timestamp_update_timestamp]
    have hCQ : (0 : ℚ) ≤ engagement_score p + virality_bonus p + hashtag_bonus tr p +
        interaction_bonus hi p + content_format_bonus pr p := by
      have e1 : (0 : ℚ) ≤ engagement_score p := by rw [engagement_score]; positivity
      have e2 : (0 : ℚ) ≤ virality_bonus p := by rw [virality_bonus]; positivity
      have e3 : (0 : ℚ) ≤ hashtag_bonus tr p := by rw [hashtag_bonus]; positivity
      have e4 : (0 : ℚ) ≤ interaction_bonus hi p := by rw [interaction_bonus]; positivity
      have e5 : (0 : ℚ) ≤ content_format_bonus pr p := by
        rw [content_format_bonus]; linarith
      linarith
    have hC : (0 : ℝ) ≤ ((engagement_score p + virality_bonus p + hashtag_bonus tr p +
        interaction_bonus hi p + content_format_bonus pr p : ℚ) : ℝ) := by
      exact_mod_cast hCQ
    have hq1 : (0 : ℚ) ≤ (now - t1) / 3600 := hours_nonneg_iff.mpr h1
    have hq21 : (now - t1) / 3600 ≤ (now - t2) / 3600 := by
      have hsub : now - t1 ≤ now - t2 := by linarith
      linarith
    have h1R : (0 : ℝ) ≤ (((now - t1) / 3600 : ℚ) : ℝ) := by exact_mod_cast hq1
    have h21R : (((now - t1) / 3600 : ℚ) : ℝ) ≤ (((now - t2) / 3600 : ℚ) : ℝ) := by
      exact_mod_cast hq21
    have h2R : (0 : ℝ) ≤ (((now - t2) / 3600 : ℚ) : ℝ) := le_trans h1R h21R
    have hrp := Real.rpow_le_rpow h1R h21R (by norm_num : (0 : ℝ) ≤ (1.2 : ℝ))
    have hb1 : (0 : ℝ) < 1 + (((now - t1) / 3600 : ℚ) : ℝ) ^ (1.2 : ℝ) := by
      have := Real.rpow_nonneg h1R (1.2 : ℝ)
      linarith
    have hdec : 1 / (1 + (((now - t2) / 3600 : ℚ) : ℝ) ^ (1.2 : ℝ)) ≤
        1 / (1 + (((now - t1) / 3600 : ℚ) : ℝ) ^ (1.2 : ℝ)) :=
      one_div_le_one_div_of_le hb1 (by linarith)
    have hP : (0 : ℝ) ≤ ((0.98 : ℚ) : ℝ) := by norm_num
    exact mul_le_mul_of_nonneg_right (mul_le_mul_of_nonneg_left hdec hC) hP

/-- Witness for C9's amended theorem at a concrete input. -/
theorem C9_recency_monotone_witness :
    (post9.author ∈ ["u"] ∧ (-3600 : ℚ) ≤ 0 ∧ (0 : ℚ) ≤ 0 ∧
      0 ≤ (([("text", (1 : ℚ))]).lookup post9.content_format).getD 1) ∧
    (∃ s1 s2 : ℝ,
      generate_feed [{ post9 with timestamp := 0 }] ["u"] [] [] [("text", 1)] 0 =
        some ([{ post9 with timestamp := 0, final_score := some (Score.real s1) }],
          [{ post9 with timestamp := 0, final_score := some (Score.real s1) }]) ∧
      generate_feed [{ post9 with timestamp := -3600 }] ["u"] [] [] [("text", 1)] 0 =
        some ([{ post9 with timestamp := -3600, final_score := some (Score.real s2) }],
          [{ post9 with timestamp := -3600, final_score := some (Score.real s2) }]) ∧
      s2 ≤ s1) :=
  ⟨⟨by decide, by norm_num, le_refl 0, by simp [List.lookup, post9]⟩,
    C9_recency_monotone ["u"] [] [] [("text", 1)] 0 0 (-3600) post9 (by decide)
      (by norm_num) (by norm_num) (by simp [List.lookup, post9])⟩

theorem final_value_post9 :
    final_value [] [] [("text", -5)] (author_frequency [post9]) 0 post9 =
      (-9.8 : ℝ) := by
  rw [final_value, diversity_penalty_single,
    show engagement_score post9 + virality_bonus post9 + hashtag_bonus [] post9 +
        interaction_bonus [] post9 + content_format_bonus [("text", -5)] post9 =
      (-10 : ℚ) from by
        rw [engagement_score, virality_bonus, hashtag_bonus, interaction_bonus,
          content_format_bonus,
          show (List.lookup post9.content_format [("text", (-5 : ℚ))]).getD 1 =
            (-5 : ℚ) from by simp [List.lookup, post9],
          show post9.likes = 0 from rfl, show post9.reposts = 0 from rfl,
          show post9.comments = 0 from rfl, show post9.quotes = 0 from rfl,
          show post9.engaged_by_followers = 0 from rfl,
          show (post9.hashtags.dedup.filter
            (fun t => decide (t ∈ ([] : List String)))).length = 0 from by decide,
          show (List.lookup post9.author ([] : List (String × ℕ))).getD 0 = 0
            from rfl]
        norm_num,
    show (0 - post9.timestamp) / 3600 = (0 : ℚ) from by
      rw [show post9.timestamp = 0 from rfl]; norm_num]
  rw [Rat.cast_zero, Real.zero_rpow (by norm_num : (1.2 : ℝ) ≠ 0)]
  push_cast
  norm_num

theorem final_value_post9b :
    final_value [] [] [("text", -5)] (author_frequency [post9b]) 0 post9b =
      (-4.9 : ℝ) := by
  rw [final_value, diversity_penalty_single,
    show engagement_score post9b + virality_bonus post9b + hashtag_bonus [] post9b +
        interaction_bonus [] post9b + content_format_bonus [("text", -5)] post9b =
      (-10 : ℚ) from by
        rw [engagement_score, virality_bonus, hashtag_bonus, interaction_bonus,
          content_format_bonus,
          show (List.lookup post9b.content_format [("text", (-5 : ℚ))]).getD 1 =
            (-5 : ℚ) from by simp [List.lookup, post9b, post9],
          show post9b.likes = 0 from rfl, show post9b.reposts = 0 from rfl,
          show post9b.comments = 0 from rfl, show post9b.quotes = 0 from rfl,
          show post9b.engaged_by_followers = 0 from rfl,
          show (post9b.hashtags.dedup.filter
            (fun t => decide (t ∈ ([] : List String)))).length = 0 from by decide,
          show (List.lookup post9b.author ([] : List (String × ℕ))).getD 0 = 0
            from rfl]
        norm_num,
    show (0 - post9b.timestamp) / 3600 = (1 : ℚ) from by
      rw [show post9b.timestamp = -3600 from rfl]; norm_num]
  rw [Rat.cast_one, Real.one_rpow]
  push_cast
  norm_num

/-- Counterexample to C9 as stated: with a negative format-preference weight
the additive bundle is negative, and the fresher of two otherwise-identical
posts receives a strictly smaller score (−9.8 versus −4.9). -/
theorem C9_counterexample :
    ¬ (∀ (fo : List String) (hi : List (String × ℕ)) (tr : List String)
        (pr : List (String × ℚ)) (now t1 t2 : ℚ) (p : Post),
        p.author ∈ fo → t2 ≤ t1 → t1 ≤ now →
        ∀ u1 o1 u2 o2 : List Post, ∀ s1 s2 : ℝ,
          generate_feed [{ p with timestamp := t1 }] fo hi tr pr now =
            some (u1, o1) →
          o1 = [{ p with timestamp := t1, final_score := some (Score.real s1) }] →
          generate_feed [{ p with timestamp := t2 }] fo hi tr pr now =
            some (u2, o2) →
          o2 = [{ p with timestamp := t2, final_score := some (Score.real s2) }] →
          s2 ≤ s1) := by
  intro hclaim
  have e1 : generate_feed [post9] ["u"] [] [] [("text", -5)] 0 =
      some ([write_score [] [] [("text", -5)] (author_frequency [post9]) 0 post9],
        [write_score [] [] [("text", -5)] (author_frequency [post9]) 0 post9]) :=
    generate_feed_singleton (by decide)
  have e2 : generate_feed [post9b] ["u"] [] [] [("text", -5)] 0 =
      some ([write_score [] [] [("text", -5)] (author_frequency [post9b]) 0 post9b],
        [write_score [] [] [("text", -5)] (author_frequency [post9b]) 0 post9b]) :=
    generate_feed_singleton (by decide)
  have hw1 : write_score [] [] [("text", -5)] (author_frequency [post9]) 0 post9 =
      { post9 with final_score := some (Score.real (-9.8 : ℝ)) } := by
    rw [write_score,
      @post_final_score_of_le [] [] [("text", -5)] (author_frequency [post9]) 0
        post9 (by decide), final_value_post9]
  have hw2 : write_score [] [] [("text", -5)] (author_frequency [post9b]) 0 post9b =
      { post9b with final_score := some (Score.real (-4.9 : ℝ)) } := by
    rw [write_score,
      @post_final_score_of_le [] [] [("text", -5)] (author_frequency [post9b]) 0
        post9b (by decide), final_value_post9b]
  rw [hw1] at e1
  rw [hw2] at e2
  have hcon := hclaim ["u"] [] [] [("text", -5)] 0 0 (-3600) post9 (by decide)
    (by norm_num) (by norm_num)
    [{ post9 with final_score := some (Score.real (-9.8 : ℝ)) }]
    [{ post9 with final_score := some (Score.real (-9.8 : ℝ)) }]
    [{ post9b with final_score := some (Score.real (-4.9 : ℝ)) }]
    [{ post9b with final_score := some (Score.real (-4.9 : ℝ)) }]
    (-9.8) (-4.9) e1 rfl e2 rfl
  norm_num at hcon

/-- C10: on a normal return the caller's list is updated in place exactly on
the retained posts — position by position, a post by a non-followed author is
returned unchanged, a post by a followed author is the same post with just
its `final_score` written — and the returned ranking aliases entries of the
updated list. -/
theorem C10_in_place_frame (posts : List Post) (fo : List String)
    (hi : List (String × ℕ)) (tr : List String) (pr : List (String × ℚ))
    (now : ℚ) (u out : List Post)
    (h : generate_feed posts fo hi tr pr now = some (u, out)) :
    u.length = posts.length ∧
      (∀ i : ℕ, ∀ p : Post, posts[i]? = some p → p.author ∉ fo →
        u[i]? = some p) ∧
      (∀ i : ℕ, ∀ p : Post, posts[i]? = some p → p.author ∈ fo →
        u[i]? = some { p with
          final_score :=
            some (post_final_score hi tr pr (author_frequency posts) now p) }) ∧
      (∀ q ∈ out, q ∈ u) := by
  obtain ⟨hu, hout⟩ := generate_feed_some h
  subst hu
  subst hout
  refine ⟨by simp, ?_, ?_, ?_⟩
  · intro i p hp hnot
    rw [List.getElem?_map, hp]
    simp [scored_step_of_not_mem hnot]
  · intro i p hp hmem
    rw [List.getElem?_map, hp]
    simp [scored_step_of_mem hmem, write_score]
  · intro q hq
    rw [List.mem_mergeSort] at hq
    exact List.mem_of_mem_filter hq

/-- Witness for C10 at a concrete input with one followed and one
non-followed post. -/
theorem C10_in_place_frame_witness :
    generate_feed [postU, postV] ["u"] [] [] [] 0 =
      some ([write_score [] [] [] (author_frequency [postU, postV]) 0 postU, postV],
        [write_score [] [] [] (author_frequency [postU, postV]) 0 postU]) ∧
      ([write_score [] [] [] (author_frequency [postU, postV]) 0 postU,
          postV].length = [postU, postV].length ∧
        (∀ i : ℕ, ∀ p : Post, [postU, postV][i]? = some p → p.author ∉ ["u"] →
          [write_score [] [] [] (author_frequency [postU, postV]) 0 postU,
            postV][i]? = some p) ∧
        (∀ i : ℕ, ∀ p : Post, [postU, postV][i]? = some p → p.author ∈ ["u"] →
          [write_score [] [] [] (author_frequency [postU, postV]) 0 postU,
            postV][i]? = some { p with
              final_score := some (post_final_score [] [] []
                (author_frequency [postU, postV]) 0 p) }) ∧
        (∀ q ∈ [write_score [] [] [] (author_frequency [postU, postV]) 0 postU],
          q ∈ [write_score [] [] [] (author_frequency [postU, postV]) 0 postU,
            postV])) :=
  ⟨generate_feed_uv,
    C10_in_place_frame [postU, postV] ["u"] [] [] [] 0 _ _ generate_feed_uv⟩

section RawLemmas

theorem raw_score_none_of_missing {hi : List (String × ℕ)} {tr : List String}
    {pr : List (String × ℚ)} {freq : String → ℕ} {now : ℚ} {p : RawPost}
    (h : p.likes = none ∨ p.reposts = none ∨ p.comments = none ∨
      p.quotes = none ∨ p.author = none ∨ p.hashtags = none ∨
      p.content_format = none ∨ p.timestamp = none) :
    raw_score hi tr pr freq now p = none := by
  rcases h with h | h | h | h | h | h | h | h <;>
    simp only [raw_score, Option.bind_eq_bind, h, Option.none_bind,
      Option.bind_none]

theorem raw_authors_of_mem_none {posts : List RawPost} {p : RawPost}
    (hp : p ∈ posts) (h : p.author = none) : raw_authors posts = none := by
  induction posts with
  | nil => cases hp
  | cons q rest ih =>
    rcases List.mem_cons.mp hp with hq | hq
    · subst hq
      simp [raw_authors, h]
    · rcases hqa : q.author with _ | a <;> simp [raw_authors, hqa, ih hq]

theorem raw_update_none_of_score {fo : List String} {score : RawPost → Option Score}
    {posts : List RawPost} {p : RawPost} {a : String} (hp : p ∈ posts)
    (ha : p.author = some a) (haf : a ∈ fo) (hsc : score p = none) :
    raw_update fo score posts = none := by
  induction posts with
  | nil => cases hp
  | cons q rest ih =>
    rcases List.mem_cons.mp hp with hq | hq
    · subst hq
      simp [raw_update, ha, haf, hsc]
    · rcases hqa : q.author with _ | b
      · simp [raw_update, hqa]
      · by_cases hbf : b ∈ fo
        · rcases hsq : score q with _ | s
          · simp [raw_update, hqa, hbf, hsq]
          · simp [raw_update, hqa, hbf, hsq, ih hq]
        · simp [raw_update, hqa, hbf, ih hq]

end RawLemmas

/-- C7 as amended: a post missing its `author` key, or a retained post
missing any of `likes`, `reposts`, `comments`, `quotes`, `hashtags`,
`content_format` or `timestamp`, aborts the whole ranking call with no
partial result — but `engaged_by_followers` is not among these, since the
code reads it with a defaulting `.get`. -/
theorem C7_missing_required_field_aborts (posts : List RawPost)
    (fo : List String) (hi : List (String × ℕ)) (tr : List String)
    (pr : List (String × ℚ)) (now : ℚ) (p : RawPost) (hp : p ∈ posts)
    (hmiss : p.author = none ∨ (∃ a, p.author = some a ∧ a ∈ fo ∧
      (p.likes = none ∨ p.reposts = none ∨ p.comments = none ∨
        p.quotes = none ∨ p.hashtags = none ∨ p.content_format = none ∨
        p.timestamp = none))) :
    generate_feed_raw posts fo hi tr pr now = none := by
  rcases hmiss with h | ⟨a, ha, haf, h7⟩
  · simp only [generate_feed_raw]
    rw [raw_authors_of_mem_none hp h]
    rfl
  · simp only [generate_feed_raw]
    rcases hau : raw_authors posts with _ | authors
    · rfl
    · simp only [Option.bind_eq_bind, Option.some_bind]
      rw [raw_update_none_of_score hp ha haf
        (raw_score_none_of_missing (by tauto))]
      rfl

/-- Witness for C7's amended theorem: a retained post missing `likes` makes
the call fail. -/
theorem C7_missing_required_field_aborts_witness :
    (rawM ∈ [rawM] ∧ rawM.author = some "u" ∧ "u" ∈ ["u"] ∧ rawM.likes = none) ∧
      generate_feed_raw [rawM] ["u"] [] [] [] 0 = none :=
  ⟨⟨List.mem_singleton.mpr rfl, rfl, by decide, rfl⟩,
    C7_missing_required_field_aborts [rawM] ["u"] [] [] [] 0 rawM
      (List.mem_singleton.mpr rfl)
      (Or.inr ⟨"u", rfl, by decide, Or.inl rfl⟩)⟩

/-- Counterexample to C7 as stated: a retained post missing only
`engaged_by_followers` does not abort — the call succeeds and returns the
post, scored with the default 0. -/
theorem C7_counterexample :
    rawE.engaged_by_followers = none ∧
    ∃ s : ℝ, generate_feed_raw [rawE] ["u"] [] [] [] 0 =
      some ([{ rawE with final_score := some (Score.real s) }],
        [{ rawE with final_score := some (Score.real s) }]) := by
  refine ⟨rfl, ?_⟩
  have hsc : ∃ v : ℝ,
      raw_score [] [] [] (fun a => List.count a ["u"]) 0 rawE =
        some (Score.real v) := by
    simp only [raw_score, Option.bind_eq_bind, show rawE.likes = some 0 from rfl,
      show rawE.reposts = some 0 from rfl, show rawE.comments = some 0 from rfl,
      show rawE.quotes = some 0 from rfl, show rawE.author = some "u" from rfl,
      show rawE.hashtags = some [] from rfl,
      show rawE.content_format = some "text" from rfl,
      show rawE.timestamp = some (0 : ℚ) from rfl, Option.some_bind]
    rw [if_pos (by norm_num : (0 : ℚ) ≤ ((0 : ℚ) - 0) / 3600)]
    exact ⟨_, rfl⟩
  obtain ⟨v, hv⟩ := hsc
  refine ⟨v, ?_⟩
  simp only [generate_feed_raw, Option.bind_eq_bind,
    show raw_authors [rawE] = some ["u"] from rfl, Option.some_bind]
  rw [show raw_update ["u"]
      (raw_score [] [] [] (fun a => List.count a ["u"]) 0) [rawE] =
      some [{ rawE with final_score := some (Score.real v) }] from by
    simp [raw_update, hv, show rawE.author = some "u" from rfl]]
  simp only [Option.some_bind]
  simp [List.filter_cons, show rawE.author = some "u" from rfl]

end ClaimProofs

end CustomFeed
